import Mathlib

/-!
Shallow embedding of `unpack_vendor_boot` (src/main.c): a vendor boot image
extractor. Files are modelled as lists of byte values (`List Nat`, each
element < 256); the C struct is parsed from the raw header bytes at the
offsets the packed layout of `struct vendor_boot_img_hdr` dictates; 32-bit
unsigned arithmetic is modelled with explicit `% 2^32`.
-/

namespace UnpackVendorBoot

/-- The macro `VENDOR_BOOT_MAGIC "VNDRBOOT"` as its 8 ASCII byte values. -/
def VENDOR_BOOT_MAGIC : List Nat := [86, 78, 68, 82, 66, 79, 79, 84]

/-- The macro `VENDOR_BOOT_MAGIC_SIZE 8`. -/
def VENDOR_BOOT_MAGIC_SIZE : Nat := 8

/-- The macro `VENDOR_BOOT_ARGS_SIZE 2048`. -/
def VENDOR_BOOT_ARGS_SIZE : Nat := 2048

/-- The macro `VENDOR_BOOT_NAME_SIZE 16`. -/
def VENDOR_BOOT_NAME_SIZE : Nat := 16

/-- The macro `VENDOR_HEADER_SIZE 2112`. -/
def VENDOR_HEADER_SIZE : Nat := 2112

/-- Modulus of C `uint32_t` arithmetic. -/
def U32_MOD : Nat := 4294967296

/-- The macro `PAGES(size, page_size) = ((size) + (page_size) - 1) / (page_size)`.
The operands are `uint32_t` (or `int` promoted to it), so the addition and the
subtraction happen modulo 2^32. For `page_size ≥ 1` the wrapped value of
`size + page_size - 1` equals `(size + page_size - 1) % 2^32` in `Nat`
(the wrap of the addition and of the subtraction by one compose to a single
reduction). `page_size = 0` would be a division fault in C; the caller
(`runExtractor`) models that case separately, before this is evaluated. -/
def PAGES (size page_size : Nat) : Nat :=
  ((size + page_size - 1) % U32_MOD) / page_size

/-- The macro `ALIGN(size, page_size) = (PAGES(size, page_size)) * (page_size)`,
again a `uint32_t` multiplication, hence the reduction modulo 2^32. -/
def ALIGN (size page_size : Nat) : Nat :=
  (PAGES size page_size * page_size) % U32_MOD

/-! ## The C struct layout

`struct vendor_boot_img_hdr` as the sequence of its field sizes and
alignments, in declaration order, to compute the offsets and `sizeof` the C
compiler produces: `uint8_t` arrays have alignment 1, `uint32_t` has size and
alignment 4, `uint64_t` size and alignment 8. -/

/-- Pairs of size and alignment of each field of `struct vendor_boot_img_hdr`:
magic[8], header_version, page_size, kernel_addr, ramdisk_addr,
vendor_ramdisk_size, cmdline[2048], tags_addr, name[16], header_size,
dtb_size, dtb_addr. -/
def fieldSizes : List (Nat × Nat) :=
  [(8, 1), (4, 4), (4, 4), (4, 4), (4, 4), (4, 4), (2048, 1), (4, 4),
   (16, 1), (4, 4), (4, 4), (8, 8)]

/-- Round `n` up to the next multiple of `a` (C struct layout padding rule). -/
def alignUp (n a : Nat) : Nat := ((n + a - 1) / a) * a

/-- Offsets the C layout algorithm assigns to the fields, starting at `off`:
each field is placed at the current offset rounded up to its alignment. -/
def layoutOffsets : List (Nat × Nat) → Nat → List Nat
  | [], _ => []
  | (sz, al) :: rest, off => alignUp off al :: layoutOffsets rest (alignUp off al + sz)

/-- Offset just past the last field. -/
def layoutEnd : List (Nat × Nat) → Nat → Nat
  | [], off => off
  | (sz, al) :: rest, off => layoutEnd rest (alignUp off al + sz)

/-- Struct alignment = maximum field alignment. -/
def maxAlign (fs : List (Nat × Nat)) : Nat := fs.foldr (fun f m => max f.2 m) 1

/-- Size of the struct as `sizeof` computes it: end of the last field rounded up to the struct
alignment. -/
def structSize (fs : List (Nat × Nat)) : Nat := alignUp (layoutEnd fs 0) (maxAlign fs)

/-! ## Parsing the header bytes into the struct -/

/-- The C struct, fields as mathematical values (fixed-size byte arrays as
lists, integers as `Nat`). -/
structure vendor_boot_img_hdr where
  magic : List Nat
  header_version : Nat
  page_size : Nat
  kernel_addr : Nat
  ramdisk_addr : Nat
  vendor_ramdisk_size : Nat
  cmdline : List Nat
  tags_addr : Nat
  name : List Nat
  header_size : Nat
  dtb_size : Nat
  dtb_addr : Nat
deriving Repr, DecidableEq

/-- Byte at offset `off` (reads on the real path never leave the buffer). -/
def readU8 (bytes : List Nat) (off : Nat) : Nat := bytes.getD off 0

/-- Little-endian `uint32_t` at offset `off` (spec fixes little-endian). -/
def readU32LE (bytes : List Nat) (off : Nat) : Nat :=
  readU8 bytes off + 256 * readU8 bytes (off + 1) +
    65536 * readU8 bytes (off + 2) + 16777216 * readU8 bytes (off + 3)

/-- Little-endian `uint64_t` at offset `off`. -/
def readU64LE (bytes : List Nat) (off : Nat) : Nat :=
  readU32LE bytes off + U32_MOD * readU32LE bytes (off + 4)

/-- Reinterpret the raw header bytes as `struct vendor_boot_img_hdr`, at the
offsets of the packed layout (proved equal to the C layout in the claim about
`structSize`): 0 magic, 8 header_version, 12 page_size, 16 kernel_addr,
20 ramdisk_addr, 24 vendor_ramdisk_size, 28 cmdline, 2076 tags_addr,
2080 name, 2096 header_size, 2100 dtb_size, 2104 dtb_addr. -/
def parseHdr (bytes : List Nat) : vendor_boot_img_hdr where
  magic := bytes.take 8
  header_version := readU32LE bytes 8
  page_size := readU32LE bytes 12
  kernel_addr := readU32LE bytes 16
  ramdisk_addr := readU32LE bytes 20
  vendor_ramdisk_size := readU32LE bytes 24
  cmdline := (bytes.drop 28).take 2048
  tags_addr := readU32LE bytes 2076
  name := (bytes.drop 2080).take 16
  header_size := readU32LE bytes 2096
  dtb_size := readU32LE bytes 2100
  dtb_addr := readU64LE bytes 2104

/-! ## The stream model -/

/-- Model of `file_read(ptr, size, stream)` with the stream positioned at absolute
offset `pos` (the code always seeks absolutely first; `fseek(SEEK_SET)` to a
nonnegative offset succeeds on a regular file even past end of file, failures
surfacing only at the read). `fread(ptr, size, 1, stream)` returns the item
count 1 exactly when `size > 0` and `size` bytes remain; ISO C mandates that
`fread` return 0 when `size` is 0, which `file_read` treats as failure. -/
def freadAt (file : List Nat) (pos size : Nat) : Option (List Nat) :=
  if 0 < size ∧ pos + size ≤ file.length then some ((file.drop pos).take size)
  else none

/-- Model of `printf("%s", bytes + off)`: the string conversion scans from `off` for a
terminating zero byte with no bound from the declared field size, so an
unterminated field makes it read the adjacent struct fields. (Past the end of
the whole struct it would read unrelated stack memory; the model stops at the
end of the given bytes.) -/
def scanCString (bytes : List Nat) (off : Nat) : List Nat :=
  (bytes.drop off).takeWhile (fun b => b != 0)

/-! ## The extractor pipeline (`main` after a successful `fopen`) -/

/-- Outcome of one extractor run on an opened input file. Output `fopen` and
`fwrite` are modelled as succeeding (their failures are environmental, not
functions of the input bytes), so the write error paths do not appear.
`divFault` models the undefined behaviour (in practice SIGFPE) of
`ALIGN(VENDOR_HEADER_SIZE, 0)` dividing by zero: the code has no check
between the magic test and that division. -/
inductive ExtractResult where
  | headerReadError : ExtractResult
  | magicMismatch : ExtractResult
  | divFault : ExtractResult
  | ramdiskReadError : ExtractResult
  | dtbReadError (ramdisk : List Nat) : ExtractResult
  | ok (ramdisk dtb cmdlineOut nameOut : List Nat) : ExtractResult
deriving Repr, DecidableEq

/-- The body of `main` from the header read onward, as a function of the
input file bytes: read `sizeof(hdr)` bytes; compare 8 magic bytes
(`strncmp` with a literal free of interior zero bytes is plain 8-byte
equality); seek to `ALIGN(VENDOR_HEADER_SIZE, page_size)` and read
`vendor_ramdisk_size` bytes, written to the ramdisk artifact; seek to that
offset plus `ALIGN(vendor_ramdisk_size, page_size)` and read `dtb_size`
bytes, written to the dtb artifact; finally report the `cmdline` and `name`
strings with `printf("%s", ...)`. -/
def runExtractor (file : List Nat) : ExtractResult :=
  (freadAt file 0 (structSize fieldSizes)).elim .headerReadError (fun hb =>
    if (parseHdr hb).magic ≠ VENDOR_BOOT_MAGIC then .magicMismatch
    else if (parseHdr hb).page_size = 0 then .divFault
    else
      (freadAt file (ALIGN VENDOR_HEADER_SIZE (parseHdr hb).page_size)
          (parseHdr hb).vendor_ramdisk_size).elim .ramdiskReadError (fun rd =>
        (freadAt file
            (ALIGN VENDOR_HEADER_SIZE (parseHdr hb).page_size +
              ALIGN (parseHdr hb).vendor_ramdisk_size (parseHdr hb).page_size)
            (parseHdr hb).dtb_size).elim (.dtbReadError rd) (fun dtb =>
          .ok rd dtb (scanCString hb 28) (scanCString hb 2080))))

/-- Contents of `vendor_ramdisk.img` after the run, `none` when the file was
never created: it is opened (and so created or truncated) only after the
ramdisk read succeeded. -/
def ramdiskArtifact : ExtractResult → Option (List Nat)
  | .dtbReadError rd => some rd
  | .ok rd _ _ _ => some rd
  | _ => none

/-- Contents of `vendor_dtb.img` after the run, `none` when never created. -/
def dtbArtifact : ExtractResult → Option (List Nat)
  | .ok _ dtb _ _ => some dtb
  | _ => none

/-- Did the run reach `ret = EXIT_SUCCESS`? -/
def isSuccess : ExtractResult → Bool
  | .ok _ _ _ _ => true
  | _ => false

/-- Process exit status of the extractor body: `some 0` = `EXIT_SUCCESS`,
`some 1` = `EXIT_FAILURE`, `none` = abnormal termination (division fault). -/
def exitStatus : ExtractResult → Option Nat
  | .ok _ _ _ _ => some 0
  | .divFault => none
  | _ => some 1

/-! ## Argument handling (`parse_args` and the top of `main`) -/

/-- Model of `parse_args`: requires `argc == 2` (program name plus exactly one
operand) and yields `argv[1]`; otherwise prints usage and fails. -/
def parse_args (argv : List String) : Option String :=
  match argv with
  | [_, path] => some path
  | _ => none

/-- Top-level outcome: `usage` = wrong operand count (usage text printed,
nothing else done), `inputOpenError` = the input `fopen` failed, `ran r` =
the extractor body ran with outcome `r`. -/
inductive ProgOutcome where
  | usage : ProgOutcome
  | inputOpenError : ProgOutcome
  | ran (r : ExtractResult) : ProgOutcome
deriving Repr, DecidableEq

/-- Model of `main`: parse arguments (on failure return `EXIT_SUCCESS` immediately,
with no file access), open the input path in the file system `fs`, then run
the extractor body on its bytes. -/
def progMain (argv : List String) (fs : String → Option (List Nat)) : ProgOutcome :=
  (parse_args argv).elim .usage (fun path =>
    (fs path).elim .inputOpenError (fun f => .ran (runExtractor f)))

/-- Exit status of the whole program; note the `usage` path returns
`EXIT_SUCCESS`. -/
def progExitStatus : ProgOutcome → Option Nat
  | .usage => some 0
  | .inputOpenError => some 1
  | .ran r => exitStatus r

/-! ## Spec-side definitions, for comparison with the code -/

/-- Modelled from the spec words (testable property 1): the mathematical
page alignment `ceil(size / page_size) * page_size`, in exact natural
arithmetic with no 32-bit reduction. To be compared with `ALIGN`. -/
def specAlign (size page_size : Nat) : Nat :=
  ((size + page_size - 1) / page_size) * page_size

/-- Modelled from the spec words (round-trip property): the synthetic image
laid out as header bytes, padding up to the page boundary, ramdisk bytes,
padding, dtb bytes. -/
def mkImage (hb pad1 R pad2 D : List Nat) : List Nat :=
  hb ++ (pad1 ++ (R ++ (pad2 ++ D)))

/-- Modelled from claim C1 and spec data-model invariants: the image pieces
form a well-formed image when the header is a full 2112 bytes with correct
magic, nonzero page size, segment sizes matching the payloads (both nonzero,
as the data model requires of a well-formed image), and the two paddings
reach the next page boundary. -/
def wellFormedImage (hb R D pad1 pad2 : List Nat) : Prop :=
  hb.length = 2112 ∧
  (parseHdr hb).magic = VENDOR_BOOT_MAGIC ∧
  0 < (parseHdr hb).page_size ∧
  (parseHdr hb).vendor_ramdisk_size = R.length ∧
  (parseHdr hb).dtb_size = D.length ∧
  0 < R.length ∧ 0 < D.length ∧
  pad1.length = specAlign 2112 (parseHdr hb).page_size - 2112 ∧
  pad2.length = specAlign R.length (parseHdr hb).page_size - R.length

/-- Modelled from the spec words (claim C8): the terminator scan the spec
demands, confined to the field of declared size `len`. To be compared with
`scanCString`. -/
def boundedCString (bytes : List Nat) (off len : Nat) : List Nat :=
  ((bytes.drop off).take len).takeWhile (fun b => b != 0)

/-! ## Concrete input builders -/

/-- Little-endian byte encoding of a `uint32_t` value. -/
def u32Bytes (n : Nat) : List Nat :=
  [n % 256, n / 256 % 256, n / 65536 % 256, n / 16777216 % 256]

/-- Serialize a header with the given field values (magic fixed to the
correct one) into its 2112 on-disk bytes, the 64-bit `dtb_addr` given as its
low and high 32-bit halves. -/
def mkHdrBytes (version page_size kernel_addr ramdisk_addr vendor_ramdisk_size : Nat)
    (cmdline : List Nat) (tags_addr : Nat) (name : List Nat)
    (header_size dtb_size dtb_addr_lo dtb_addr_hi : Nat) : List Nat :=
  VENDOR_BOOT_MAGIC ++ (u32Bytes version ++ (u32Bytes page_size ++
    (u32Bytes kernel_addr ++ (u32Bytes ramdisk_addr ++
    (u32Bytes vendor_ramdisk_size ++ (cmdline ++ (u32Bytes tags_addr ++
    (name ++ (u32Bytes header_size ++ (u32Bytes dtb_size ++
    (u32Bytes dtb_addr_lo ++ u32Bytes dtb_addr_hi)))))))))))

/-- All-zero 2048-byte command line. -/
def zeroCmdline : List Nat := List.replicate 2048 0

/-- All-zero 16-byte name. -/
def zeroName : List Nat := List.replicate 16 0

/-- Header of a small valid image: `page_size = 1`,
`vendor_ramdisk_size = 2`, `dtb_size = 1`. -/
def hbSmall : List Nat := mkHdrBytes 3 1 0 0 2 zeroCmdline 0 zeroName 2112 1 0 0

/-- Small valid image: with `page_size = 1` there is no padding; ramdisk
bytes `[10, 20]`, dtb byte `[30]`. -/
def imgSmall : List Nat := mkImage hbSmall [] [10, 20] [] [30]

/-- A 2112-byte header alone, declaring `vendor_ramdisk_size = 5` with no
payload following: the ramdisk segment read must hit end of file. -/
def imgTruncated : List Nat := mkHdrBytes 3 1 0 0 5 zeroCmdline 0 zeroName 2112 1 0 0

/-- Valid magic but `page_size = 0`: the input on which the code divides by
zero. -/
def imgZeroPage : List Nat := mkHdrBytes 3 0 0 0 2 zeroCmdline 0 zeroName 2112 1 0 0

/-- Header declaring `vendor_ramdisk_size = 0` (page size 1, dtb size 1). -/
def hbZeroRd : List Nat := mkHdrBytes 3 1 0 0 0 zeroCmdline 0 zeroName 2112 1 0 0

/-- Valid image except `vendor_ramdisk_size = 0` (dtb segment present). -/
def imgZeroRamdisk : List Nat := mkImage hbZeroRd [] [] [] [30]

/-- Header exercising the unterminated-string reads: `cmdline` is 2048
nonzero bytes (no terminator), `tags_addr` is the four bytes 66,66,66,66,
`name` starts 67 then a zero terminator. -/
def hbUnterminated : List Nat :=
  mkHdrBytes 3 1 0 0 1 (List.replicate 2048 65) 1111638594 (67 :: List.replicate 15 0) 2112 1 0 0

/-- Image around `hbUnterminated`: one ramdisk byte, one dtb byte. -/
def imgUnterminated : List Nat := mkImage hbUnterminated [] [7] [] [9]

/-- Page size 2^32 - 2111: the smallest page size for which the 32-bit
computation `ALIGN(2112, page_size)` wraps (2112 + page_size - 1 = 2^32). -/
def hugePage : Nat := 4294965185

/-- Header declaring `page_size = hugePage`, one ramdisk byte, one dtb
byte. -/
def hbHuge : List Nat := mkHdrBytes 3 hugePage 0 0 1 zeroCmdline 0 zeroName 2112 1 0 0

/-- A well-formed image for `hbHuge` per the round-trip recipe: padding
up to the (mathematical) page boundary before each of `R = [7]` and
`D = [9]`. -/
def imgHuge : List Nat :=
  mkImage hbHuge (List.replicate (hugePage - 2112) 0) [7] (List.replicate (hugePage - 1) 0) [9]

/-- Round-trip witness image with a page size greater than one:
`page_size = 4`, `R = [10, 20, 30]` (padded by one byte), `D = [40]`. -/
def hbPage4 : List Nat := mkHdrBytes 3 4 0 0 3 zeroCmdline 0 zeroName 2112 1 0 0

/-- The `page_size = 4` image (2112 is already a multiple of 4). -/
def imgPage4 : List Nat := mkImage hbPage4 [] [10, 20, 30] [0] [40]

/-! # Helper lemmas -/

/-! ## Alignment arithmetic -/

theorem specAlign_ge (S P : Nat) (hP : 0 < P) : S ≤ specAlign S P := by
  unfold specAlign
  have hdm := Nat.div_add_mod (S + P - 1) P
  have hm := Nat.mod_lt (S + P - 1) hP
  rw [Nat.mul_comm] at hdm
  omega

theorem specAlign_sub_lt (S P : Nat) (hP : 0 < P) : specAlign S P - S < P := by
  unfold specAlign
  have hdm := Nat.div_add_mod (S + P - 1) P
  have hm := Nat.mod_lt (S + P - 1) hP
  rw [Nat.mul_comm] at hdm
  omega

/-- When `size + page_size - 1` fits in 32 bits, the C macro agrees with the
mathematical alignment. -/
theorem ALIGN_eq_specAlign (S P : Nat) (_hP : 0 < P) (hov : S + P ≤ U32_MOD) :
    ALIGN S P = specAlign S P := by
  unfold ALIGN PAGES specAlign
  have h1 : S + P - 1 < U32_MOD := by unfold U32_MOD at hov ⊢; omega
  rw [Nat.mod_eq_of_lt h1]
  have h2 : (S + P - 1) / P * P ≤ S + P - 1 := Nat.div_mul_le_self _ _
  exact Nat.mod_eq_of_lt (by omega)

/-! ## Stream reads -/

theorem freadAt_some (f : List Nat) (pos size : Nat) (h0 : 0 < size)
    (h : pos + size ≤ f.length) :
    freadAt f pos size = some ((f.drop pos).take size) := by
  unfold freadAt
  rw [if_pos ⟨h0, h⟩]

theorem freadAt_none_of_short (f : List Nat) (pos size : Nat)
    (h : f.length < pos + size) : freadAt f pos size = none := by
  unfold freadAt
  rw [if_neg]
  intro hc
  omega

theorem freadAt_zero (f : List Nat) (pos : Nat) : freadAt f pos 0 = none := by
  unfold freadAt
  rw [if_neg]
  intro hc
  exact absurd hc.1 (by omega)

theorem freadAt_inv (f : List Nat) (pos size : Nat) (bs : List Nat)
    (h : freadAt f pos size = some bs) :
    bs = (f.drop pos).take size ∧ 0 < size ∧ pos + size ≤ f.length := by
  unfold freadAt at h
  split at h
  case isTrue hc => exact ⟨(Option.some.injEq _ _ ▸ h).symm, hc⟩
  case isFalse => cases h

/-- The value of `sizeof(struct vendor_boot_img_hdr)` computed by the C layout rules. -/
theorem structSize_eq : structSize fieldSizes = 2112 := by decide

theorem header_fread (f : List Nat) (h : 2112 ≤ f.length) :
    freadAt f 0 (structSize fieldSizes) = some (f.take 2112) := by
  rw [structSize_eq, freadAt_some f 0 2112 (by omega) (by omega), List.drop_zero]

/-! ## Byte access across appended blocks -/

theorem readU8_shift (l₁ l₂ : List Nat) (i : Nat) :
    readU8 (l₁ ++ l₂) (l₁.length + i) = readU8 l₂ i := by
  unfold readU8
  rw [List.getD_append_right l₁ l₂ 0 _ (Nat.le_add_right _ _), Nat.add_sub_cancel_left]

theorem readU32LE_shift (l₁ l₂ : List Nat) (n i : Nat) (h : l₁.length = n) :
    readU32LE (l₁ ++ l₂) (n + i) = readU32LE l₂ i := by
  subst h
  unfold readU32LE
  rw [Nat.add_assoc _ i 1, Nat.add_assoc _ i 2, Nat.add_assoc _ i 3,
    readU8_shift, readU8_shift, readU8_shift, readU8_shift]

theorem drop_shift (l₁ l₂ : List Nat) (n i : Nat) (h : l₁.length = n) :
    (l₁ ++ l₂).drop (n + i) = l₂.drop i := by
  subst h
  exact List.drop_append i

theorem take_shift (l₁ l₂ : List Nat) (n i : Nat) (h : l₁.length = n) :
    (l₁ ++ l₂).take (n + i) = l₁ ++ l₂.take i := by
  subst h
  exact List.take_append i

theorem readU32LE_u32Bytes (m : Nat) (rest : List Nat) (hm : m < U32_MOD) :
    readU32LE (u32Bytes m ++ rest) 0 = m := by
  unfold readU32LE readU8 u32Bytes U32_MOD at *
  simp only [List.cons_append, List.nil_append, List.getD_cons_zero, List.getD_cons_succ]
  omega

theorem u32Bytes_length (m : Nat) : (u32Bytes m).length = 4 := rfl

theorem magic_length : VENDOR_BOOT_MAGIC.length = 8 := rfl

/-! ## Parsing fields out of a serialized header -/

theorem mkHdrBytes_length (v P ka ra rd ta hs ds dlo dhi : Nat) (cl nm : List Nat)
    (hcl : cl.length = 2048) (hnm : nm.length = 16) :
    (mkHdrBytes v P ka ra rd cl ta nm hs ds dlo dhi).length = 2112 := by
  unfold mkHdrBytes
  simp [u32Bytes, VENDOR_BOOT_MAGIC, hcl, hnm]

theorem mkHdrBytes_magic (v P ka ra rd ta hs ds dlo dhi : Nat) (cl nm : List Nat) :
    (parseHdr (mkHdrBytes v P ka ra rd cl ta nm hs ds dlo dhi)).magic =
      VENDOR_BOOT_MAGIC := by
  show (mkHdrBytes v P ka ra rd cl ta nm hs ds dlo dhi).take 8 = VENDOR_BOOT_MAGIC
  unfold mkHdrBytes
  exact List.take_left' magic_length

theorem mkHdrBytes_page_size (v P ka ra rd ta hs ds dlo dhi : Nat) (cl nm : List Nat)
    (hP32 : P < U32_MOD) :
    (parseHdr (mkHdrBytes v P ka ra rd cl ta nm hs ds dlo dhi)).page_size = P := by
  show readU32LE (mkHdrBytes v P ka ra rd cl ta nm hs ds dlo dhi) 12 = P
  unfold mkHdrBytes
  rw [show (12 : Nat) = 8 + 4 from rfl, readU32LE_shift _ _ 8 4 magic_length,
    show (4 : Nat) = 4 + 0 from rfl, readU32LE_shift _ _ 4 0 (u32Bytes_length v),
    readU32LE_u32Bytes P _ hP32]

theorem mkHdrBytes_rd_size (v P ka ra rd ta hs ds dlo dhi : Nat) (cl nm : List Nat)
    (hrd32 : rd < U32_MOD) :
    (parseHdr (mkHdrBytes v P ka ra rd cl ta nm hs ds dlo dhi)).vendor_ramdisk_size =
      rd := by
  show readU32LE (mkHdrBytes v P ka ra rd cl ta nm hs ds dlo dhi) 24 = rd
  unfold mkHdrBytes
  rw [show (24 : Nat) = 8 + 16 from rfl, readU32LE_shift _ _ 8 16 magic_length,
    show (16 : Nat) = 4 + 12 from rfl, readU32LE_shift _ _ 4 12 (u32Bytes_length v),
    show (12 : Nat) = 4 + 8 from rfl, readU32LE_shift _ _ 4 8 (u32Bytes_length P),
    show (8 : Nat) = 4 + 4 from rfl, readU32LE_shift _ _ 4 4 (u32Bytes_length ka),
    show (4 : Nat) = 4 + 0 from rfl, readU32LE_shift _ _ 4 0 (u32Bytes_length ra),
    readU32LE_u32Bytes rd _ hrd32]

theorem mkHdrBytes_dtb_size (v P ka ra rd ta hs ds dlo dhi : Nat) (cl nm : List Nat)
    (hcl : cl.length = 2048) (hnm : nm.length = 16) (hds32 : ds < U32_MOD) :
    (parseHdr (mkHdrBytes v P ka ra rd cl ta nm hs ds dlo dhi)).dtb_size = ds := by
  show readU32LE (mkHdrBytes v P ka ra rd cl ta nm hs ds dlo dhi) 2100 = ds
  unfold mkHdrBytes
  rw [show (2100 : Nat) = 8 + 2092 from rfl, readU32LE_shift _ _ 8 2092 magic_length,
    show (2092 : Nat) = 4 + 2088 from rfl, readU32LE_shift _ _ 4 2088 (u32Bytes_length v),
    show (2088 : Nat) = 4 + 2084 from rfl, readU32LE_shift _ _ 4 2084 (u32Bytes_length P),
    show (2084 : Nat) = 4 + 2080 from rfl, readU32LE_shift _ _ 4 2080 (u32Bytes_length ka),
    show (2080 : Nat) = 4 + 2076 from rfl, readU32LE_shift _ _ 4 2076 (u32Bytes_length ra),
    show (2076 : Nat) = 4 + 2072 from rfl, readU32LE_shift _ _ 4 2072 (u32Bytes_length rd),
    show (2072 : Nat) = 2048 + 24 from rfl, readU32LE_shift _ _ 2048 24 hcl,
    show (24 : Nat) = 4 + 20 from rfl, readU32LE_shift _ _ 4 20 (u32Bytes_length ta),
    show (20 : Nat) = 16 + 4 from rfl, readU32LE_shift _ _ 16 4 hnm,
    show (4 : Nat) = 4 + 0 from rfl, readU32LE_shift _ _ 4 0 (u32Bytes_length hs),
    readU32LE_u32Bytes ds _ hds32]

/-- The raw bytes from offset 28 of a serialized header: the command line
followed by the remaining fields. -/
theorem mkHdrBytes_drop28 (v P ka ra rd ta hs ds dlo dhi : Nat) (cl nm : List Nat) :
    (mkHdrBytes v P ka ra rd cl ta nm hs ds dlo dhi).drop 28 =
      cl ++ (u32Bytes ta ++ (nm ++ (u32Bytes hs ++ (u32Bytes ds ++
        (u32Bytes dlo ++ u32Bytes dhi))))) := by
  unfold mkHdrBytes
  rw [show (28 : Nat) = 8 + 20 from rfl, drop_shift _ _ 8 20 magic_length,
    show (20 : Nat) = 4 + 16 from rfl, drop_shift _ _ 4 16 (u32Bytes_length v),
    show (16 : Nat) = 4 + 12 from rfl, drop_shift _ _ 4 12 (u32Bytes_length P),
    show (12 : Nat) = 4 + 8 from rfl, drop_shift _ _ 4 8 (u32Bytes_length ka),
    show (8 : Nat) = 4 + 4 from rfl, drop_shift _ _ 4 4 (u32Bytes_length ra),
    show (4 : Nat) = 4 + 0 from rfl, drop_shift _ _ 4 0 (u32Bytes_length rd),
    List.drop_zero]

/-- The raw bytes from offset 2080 of a serialized header: the name followed
by the remaining fields. -/
theorem mkHdrBytes_drop2080 (v P ka ra rd ta hs ds dlo dhi : Nat) (cl nm : List Nat)
    (hcl : cl.length = 2048) :
    (mkHdrBytes v P ka ra rd cl ta nm hs ds dlo dhi).drop 2080 =
      nm ++ (u32Bytes hs ++ (u32Bytes ds ++ (u32Bytes dlo ++ u32Bytes dhi))) := by
  unfold mkHdrBytes
  rw [show (2080 : Nat) = 8 + 2072 from rfl, drop_shift _ _ 8 2072 magic_length,
    show (2072 : Nat) = 4 + 2068 from rfl, drop_shift _ _ 4 2068 (u32Bytes_length v),
    show (2068 : Nat) = 4 + 2064 from rfl, drop_shift _ _ 4 2064 (u32Bytes_length P),
    show (2064 : Nat) = 4 + 2060 from rfl, drop_shift _ _ 4 2060 (u32Bytes_length ka),
    show (2060 : Nat) = 4 + 2056 from rfl, drop_shift _ _ 4 2056 (u32Bytes_length ra),
    show (2056 : Nat) = 4 + 2052 from rfl, drop_shift _ _ 4 2052 (u32Bytes_length rd),
    show (2052 : Nat) = 2048 + 4 from rfl, drop_shift _ _ 2048 4 hcl,
    show (4 : Nat) = 4 + 0 from rfl, drop_shift _ _ 4 0 (u32Bytes_length ta),
    List.drop_zero]

/-! ## Control-flow normalization of the extractor run -/

theorem run_header_fail (f : List Nat) (h : f.length < 2112) :
    runExtractor f = .headerReadError := by
  unfold runExtractor
  rw [structSize_eq, freadAt_none_of_short f 0 2112 (by omega), Option.elim_none]

theorem run_magic_fail (f : List Nat) (hlen : 2112 ≤ f.length)
    (hm : (parseHdr (f.take 2112)).magic ≠ VENDOR_BOOT_MAGIC) :
    runExtractor f = .magicMismatch := by
  unfold runExtractor
  rw [header_fread f hlen, Option.elim_some]
  rw [if_pos hm]

theorem run_div_fault (f : List Nat) (hlen : 2112 ≤ f.length)
    (hm : (parseHdr (f.take 2112)).magic = VENDOR_BOOT_MAGIC)
    (hP0 : (parseHdr (f.take 2112)).page_size = 0) :
    runExtractor f = .divFault := by
  unfold runExtractor
  rw [header_fread f hlen, Option.elim_some]
  rw [if_neg (not_not_intro hm), if_pos hP0]

theorem run_ramdisk_fail (f : List Nat) (hlen : 2112 ≤ f.length)
    (hm : (parseHdr (f.take 2112)).magic = VENDOR_BOOT_MAGIC)
    (hP : (parseHdr (f.take 2112)).page_size ≠ 0)
    (hrdfail : freadAt f (ALIGN VENDOR_HEADER_SIZE (parseHdr (f.take 2112)).page_size)
      (parseHdr (f.take 2112)).vendor_ramdisk_size = none) :
    runExtractor f = .ramdiskReadError := by
  unfold runExtractor
  rw [header_fread f hlen, Option.elim_some]
  rw [if_neg (not_not_intro hm), if_neg hP, hrdfail, Option.elim_none]

theorem run_dtb_fail (f : List Nat) (hlen : 2112 ≤ f.length)
    (hm : (parseHdr (f.take 2112)).magic = VENDOR_BOOT_MAGIC)
    (hP : (parseHdr (f.take 2112)).page_size ≠ 0) (r : List Nat)
    (hrdok : freadAt f (ALIGN VENDOR_HEADER_SIZE (parseHdr (f.take 2112)).page_size)
      (parseHdr (f.take 2112)).vendor_ramdisk_size = some r)
    (hdtbfail : freadAt f
      (ALIGN VENDOR_HEADER_SIZE (parseHdr (f.take 2112)).page_size +
        ALIGN (parseHdr (f.take 2112)).vendor_ramdisk_size
          (parseHdr (f.take 2112)).page_size)
      (parseHdr (f.take 2112)).dtb_size = none) :
    runExtractor f = .dtbReadError r := by
  unfold runExtractor
  rw [header_fread f hlen, Option.elim_some]
  rw [if_neg (not_not_intro hm), if_neg hP, hrdok, Option.elim_some]
  rw [hdtbfail, Option.elim_none]

theorem run_ok (f : List Nat) (hlen : 2112 ≤ f.length)
    (hm : (parseHdr (f.take 2112)).magic = VENDOR_BOOT_MAGIC)
    (hP : (parseHdr (f.take 2112)).page_size ≠ 0) (r d : List Nat)
    (hrdok : freadAt f (ALIGN VENDOR_HEADER_SIZE (parseHdr (f.take 2112)).page_size)
      (parseHdr (f.take 2112)).vendor_ramdisk_size = some r)
    (hdtbok : freadAt f
      (ALIGN VENDOR_HEADER_SIZE (parseHdr (f.take 2112)).page_size +
        ALIGN (parseHdr (f.take 2112)).vendor_ramdisk_size
          (parseHdr (f.take 2112)).page_size)
      (parseHdr (f.take 2112)).dtb_size = some d) :
    runExtractor f =
      .ok r d (scanCString (f.take 2112) 28) (scanCString (f.take 2112) 2080) := by
  unfold runExtractor
  rw [header_fread f hlen, Option.elim_some]
  rw [if_neg (not_not_intro hm), if_neg hP, hrdok, Option.elim_some]
  rw [hdtbok, Option.elim_some]

/-! ## String scans over serialized headers -/

theorem zeroCmdline_length : zeroCmdline.length = 2048 := by
  unfold zeroCmdline
  exact List.length_replicate 2048 0

theorem zeroName_length : zeroName.length = 16 := by
  unfold zeroName
  exact List.length_replicate 16 0

theorem scan_cmdline_zero (v P ka ra rd ta hs ds dlo dhi : Nat) (nm : List Nat) :
    scanCString (mkHdrBytes v P ka ra rd zeroCmdline ta nm hs ds dlo dhi) 28 = [] := by
  unfold scanCString
  rw [mkHdrBytes_drop28, show zeroCmdline = List.replicate 2048 0 from rfl,
    show (2048 : Nat) = 2047 + 1 by norm_num, List.replicate_succ, List.cons_append,
    List.takeWhile_cons, if_neg (by decide)]

theorem scan_name_zero (v P ka ra rd ta hs ds dlo dhi : Nat) (cl : List Nat)
    (hcl : cl.length = 2048) :
    scanCString (mkHdrBytes v P ka ra rd cl ta zeroName hs ds dlo dhi) 2080 = [] := by
  unfold scanCString
  rw [mkHdrBytes_drop2080 _ _ _ _ _ _ _ _ _ _ _ _ hcl,
    show zeroName = List.replicate 16 0 from rfl,
    show (16 : Nat) = 15 + 1 by norm_num, List.replicate_succ, List.cons_append,
    List.takeWhile_cons, if_neg (by decide)]

/-! ## Evaluating a run on a well-formed synthetic image -/

/-- The central round-trip computation: on an image assembled from a full
header with correct magic, nonzero page size, true segment sizes (both
nonzero) and exact padding, and whose alignment computations stay below
2^32, the run succeeds and the two extracted buffers are exactly the
payloads. -/
theorem runExtractor_mkImage (hb pad1 R pad2 D : List Nat)
    (hhb : hb.length = 2112)
    (hm : (parseHdr hb).magic = VENDOR_BOOT_MAGIC)
    (hP : 0 < (parseHdr hb).page_size)
    (hrd : (parseHdr hb).vendor_ramdisk_size = R.length)
    (hds : (parseHdr hb).dtb_size = D.length)
    (hR : 0 < R.length) (hD : 0 < D.length)
    (hp1 : pad1.length = specAlign 2112 (parseHdr hb).page_size - 2112)
    (hp2 : pad2.length = specAlign R.length (parseHdr hb).page_size - R.length)
    (hov1 : 2112 + (parseHdr hb).page_size ≤ U32_MOD)
    (hov2 : R.length + (parseHdr hb).page_size ≤ U32_MOD) :
    runExtractor (mkImage hb pad1 R pad2 D) =
      .ok R D (scanCString hb 28) (scanCString hb 2080) := by
  have hA : 2112 ≤ specAlign 2112 (parseHdr hb).page_size := specAlign_ge _ _ hP
  have hB : R.length ≤ specAlign R.length (parseHdr hb).page_size := specAlign_ge _ _ hP
  have hflen : (mkImage hb pad1 R pad2 D).length =
      specAlign 2112 (parseHdr hb).page_size +
        specAlign R.length (parseHdr hb).page_size + D.length := by
    simp only [mkImage, List.length_append]
    omega
  have h2112 : 2112 ≤ (mkImage hb pad1 R pad2 D).length := by omega
  have htake : (mkImage hb pad1 R pad2 D).take 2112 = hb := by
    unfold mkImage
    exact List.take_left' hhb
  have hgalign1 : ALIGN VENDOR_HEADER_SIZE (parseHdr hb).page_size =
      specAlign 2112 (parseHdr hb).page_size := by
    unfold VENDOR_HEADER_SIZE
    exact ALIGN_eq_specAlign _ _ hP hov1
  have hgalign2 : ALIGN (parseHdr hb).vendor_ramdisk_size (parseHdr hb).page_size =
      specAlign R.length (parseHdr hb).page_size := by
    rw [hrd]
    exact ALIGN_eq_specAlign _ _ hP hov2
  have hgrp1 : mkImage hb pad1 R pad2 D = (hb ++ pad1) ++ (R ++ (pad2 ++ D)) := by
    simp [mkImage, List.append_assoc]
  have hlen1 : (hb ++ pad1).length = specAlign 2112 (parseHdr hb).page_size := by
    simp only [List.length_append]
    omega
  have hread1 : freadAt (mkImage hb pad1 R pad2 D)
      (specAlign 2112 (parseHdr hb).page_size) R.length = some R := by
    rw [freadAt_some _ _ _ hR (by omega)]
    rw [hgrp1, List.drop_left' hlen1, List.take_left]
  have hgrp2 : mkImage hb pad1 R pad2 D = ((hb ++ pad1) ++ (R ++ pad2)) ++ D := by
    simp [mkImage, List.append_assoc]
  have hlen2 : ((hb ++ pad1) ++ (R ++ pad2)).length =
      specAlign 2112 (parseHdr hb).page_size +
        specAlign R.length (parseHdr hb).page_size := by
    simp only [List.length_append]
    omega
  have hread2 : freadAt (mkImage hb pad1 R pad2 D)
      (specAlign 2112 (parseHdr hb).page_size +
        specAlign R.length (parseHdr hb).page_size) D.length = some D := by
    rw [freadAt_some _ _ _ hD (by omega)]
    rw [hgrp2, List.drop_left' hlen2, List.take_length]
  have hres := run_ok (mkImage hb pad1 R pad2 D) h2112
    (by rw [htake]; exact hm) (by rw [htake]; omega) R D
    (by rw [htake, hgalign1, hrd]; exact hread1)
    (by rw [htake, hgalign1, hgalign2, hds]; exact hread2)
  rw [hres, htake]

/-! ## Facts about the concrete inputs -/

theorem hbSmall_length : hbSmall.length = 2112 := by
  unfold hbSmall
  exact mkHdrBytes_length 3 1 0 0 2 0 2112 1 0 0 zeroCmdline zeroName
    zeroCmdline_length zeroName_length

theorem hbSmall_magic : (parseHdr hbSmall).magic = VENDOR_BOOT_MAGIC := by
  unfold hbSmall
  exact mkHdrBytes_magic 3 1 0 0 2 0 2112 1 0 0 zeroCmdline zeroName

theorem hbSmall_page_size : (parseHdr hbSmall).page_size = 1 := by
  unfold hbSmall
  exact mkHdrBytes_page_size 3 1 0 0 2 0 2112 1 0 0 zeroCmdline zeroName (by decide)

theorem hbSmall_rd_size : (parseHdr hbSmall).vendor_ramdisk_size = 2 := by
  unfold hbSmall
  exact mkHdrBytes_rd_size 3 1 0 0 2 0 2112 1 0 0 zeroCmdline zeroName (by decide)

theorem hbSmall_dtb_size : (parseHdr hbSmall).dtb_size = 1 := by
  unfold hbSmall
  exact mkHdrBytes_dtb_size 3 1 0 0 2 0 2112 1 0 0 zeroCmdline zeroName
    zeroCmdline_length zeroName_length (by decide)

theorem hbSmall_scan28 : scanCString hbSmall 28 = [] := by
  unfold hbSmall
  exact scan_cmdline_zero 3 1 0 0 2 0 2112 1 0 0 zeroName

theorem hbSmall_scan2080 : scanCString hbSmall 2080 = [] := by
  unfold hbSmall
  exact scan_name_zero 3 1 0 0 2 0 2112 1 0 0 zeroCmdline zeroCmdline_length

/-- The small image runs to success with exactly its two payloads. -/
theorem runExtractor_imgSmall :
    runExtractor imgSmall = .ok [10, 20] [30] [] [] := by
  have h := runExtractor_mkImage hbSmall [] [10, 20] [] [30]
    hbSmall_length hbSmall_magic (by rw [hbSmall_page_size]; omega)
    (by rw [hbSmall_rd_size]; rfl) (by rw [hbSmall_dtb_size]; rfl)
    (by decide) (by decide)
    (by rw [hbSmall_page_size]; decide) (by rw [hbSmall_page_size]; decide)
    (by rw [hbSmall_page_size]; decide) (by rw [hbSmall_page_size]; decide)
  rw [show imgSmall = mkImage hbSmall [] [10, 20] [] [30] from rfl, h,
    hbSmall_scan28, hbSmall_scan2080]

/-! # Claim theorems -/

/-- C10: the C layout of `struct vendor_boot_img_hdr` has size exactly 2112
bytes, equal to `VENDOR_HEADER_SIZE`; the field offsets are the packed ones
used by `parseHdr`; the end of the last field equals the plain sum of the
field sizes and needs no tail padding, so there is no padding anywhere in
the struct, and reading `sizeof(hdr)` bytes from offset 0 reads exactly the
fixed on-disk layout. -/
theorem c10_struct_layout :
    structSize fieldSizes = VENDOR_HEADER_SIZE ∧
    VENDOR_HEADER_SIZE = 2112 ∧
    layoutOffsets fieldSizes 0 =
      [0, 8, 12, 16, 20, 24, 28, 2076, 2080, 2096, 2100, 2104] ∧
    layoutEnd fieldSizes 0 = (fieldSizes.map Prod.fst).sum ∧
    structSize fieldSizes = layoutEnd fieldSizes 0 := by
  decide

/-- C3 as stated is false: the alignment computation runs in 32-bit unsigned
arithmetic, and at S = 2, P = 2^32 - 1 the value 2 + P - 1 wraps to 2110,
giving `ALIGN 2 P = 0`, which differs from `ceil(2/P)*P = P` and violates
`S ≤ align(S, P)`. -/
theorem c3_align_counterexample :
    0 < 4294967295 ∧
    ALIGN 2 4294967295 = 0 ∧
    CeilDiv.ceilDiv 2 4294967295 * 4294967295 = 4294967295 ∧
    ¬ (2 ≤ ALIGN 2 4294967295) := by
  decide

/-- C3 amended: for all P > 0 and S with S + P ≤ 2^32 (so that the 32-bit
computation `S + P - 1` does not wrap), `ALIGN S P = ceil(S/P) * P`,
`S ≤ ALIGN S P`, and `ALIGN S P - S < P`. -/
theorem c3_align_amended (S P : Nat) (hP : 0 < P) (hov : S + P ≤ U32_MOD) :
    ALIGN S P = CeilDiv.ceilDiv S P * P ∧ S ≤ ALIGN S P ∧ ALIGN S P - S < P := by
  have he := ALIGN_eq_specAlign S P hP hov
  refine ⟨?_, ?_, ?_⟩
  · rw [he, Nat.ceilDiv_eq_add_pred_div]
    rfl
  · rw [he]
    exact specAlign_ge S P hP
  · rw [he]
    exact specAlign_sub_lt S P hP

/-- Witness for the amended C3 at S = 10, P = 4096. -/
theorem c3_align_amended_witness :
    (0 < 4096 ∧ 10 + 4096 ≤ U32_MOD) ∧
    (ALIGN 10 4096 = CeilDiv.ceilDiv 10 4096 * 4096 ∧
      10 ≤ ALIGN 10 4096 ∧ ALIGN 10 4096 - 10 < 4096) :=
  ⟨⟨by decide, by decide⟩, c3_align_amended 10 4096 (by decide) (by decide)⟩

/-- C4: the claim describes the intended behaviour (reject page_size = 0
with a format error before dividing), but the code performs no such check:
on a 2112-byte input with valid magic and page_size = 0 the run reaches
`ALIGN(VENDOR_HEADER_SIZE, 0)` and divides by zero (`divFault`, abnormal
termination), instead of any error return. -/
theorem c4_zero_page_size_faults :
    runExtractor imgZeroPage = ExtractResult.divFault ∧
    exitStatus (runExtractor imgZeroPage) = none := by
  have hlen : imgZeroPage.length = 2112 := by
    unfold imgZeroPage
    exact mkHdrBytes_length 3 0 0 0 2 0 2112 1 0 0 zeroCmdline zeroName
      zeroCmdline_length zeroName_length
  have htake : imgZeroPage.take 2112 = imgZeroPage := by
    rw [← hlen]
    exact List.take_length imgZeroPage
  have hrun : runExtractor imgZeroPage = .divFault := by
    refine run_div_fault imgZeroPage (by omega) ?_ ?_
    · rw [htake]
      unfold imgZeroPage
      exact mkHdrBytes_magic 3 0 0 0 2 0 2112 1 0 0 zeroCmdline zeroName
    · rw [htake]
      unfold imgZeroPage
      exact mkHdrBytes_page_size 3 0 0 0 2 0 2112 1 0 0 zeroCmdline zeroName (by decide)
  rw [hrun]
  exact ⟨rfl, rfl⟩

/-- C9: with any operand count other than exactly one (`argc ≠ 2`), the
program takes the usage path, exits with the success status, and never
consults the file system (the outcome is the same for every file system). -/
theorem c9_usage_exits_success (argv : List String)
    (fs fs2 : String → Option (List Nat)) (h : argv.length ≠ 2) :
    progMain argv fs = ProgOutcome.usage ∧
    progExitStatus (progMain argv fs) = some 0 ∧
    progMain argv fs = progMain argv fs2 := by
  have hpa : parse_args argv = none := by
    unfold parse_args
    match argv with
    | [] => rfl
    | [_] => rfl
    | _ :: _ :: _ :: _ => rfl
    | [_, _] => simp at h
  unfold progMain
  rw [hpa, Option.elim_none]
  exact ⟨rfl, rfl, rfl⟩

/-- Witness for C9 with zero operands. -/
theorem c9_usage_exits_success_witness :
    (["unpack_vendor_boot"] : List String).length ≠ 2 ∧
    (progMain ["unpack_vendor_boot"] (fun _ => none) = ProgOutcome.usage ∧
      progExitStatus (progMain ["unpack_vendor_boot"] (fun _ => none)) = some 0 ∧
      progMain ["unpack_vendor_boot"] (fun _ => none) =
        progMain ["unpack_vendor_boot"] (fun _ => some [1])) :=
  ⟨by decide,
    c9_usage_exits_success ["unpack_vendor_boot"] (fun _ => none)
      (fun _ => some [1]) (by decide)⟩

/-- C5: whenever the first 8 bytes of the input differ from `VNDRBOOT`, the
run fails (either at the header read, when the file is shorter than the
header, or at the magic check) and neither output artifact is ever created
or written. -/
theorem c5_magic_mismatch_aborts (f : List Nat)
    (h : f.take 8 ≠ VENDOR_BOOT_MAGIC) :
    isSuccess (runExtractor f) = false ∧
    ramdiskArtifact (runExtractor f) = none ∧
    dtbArtifact (runExtractor f) = none := by
  by_cases hlen : 2112 ≤ f.length
  · have hm : (parseHdr (f.take 2112)).magic ≠ VENDOR_BOOT_MAGIC := by
      show (f.take 2112).take 8 ≠ VENDOR_BOOT_MAGIC
      rw [List.take_take]
      simpa using h
    rw [run_magic_fail f hlen hm]
    exact ⟨rfl, rfl, rfl⟩
  · rw [run_header_fail f (by omega)]
    exact ⟨rfl, rfl, rfl⟩

/-- Witness for C5 at the 3-byte input [1, 2, 3]. -/
theorem c5_magic_mismatch_aborts_witness :
    ([1, 2, 3] : List Nat).take 8 ≠ VENDOR_BOOT_MAGIC ∧
    (isSuccess (runExtractor [1, 2, 3]) = false ∧
      ramdiskArtifact (runExtractor [1, 2, 3]) = none ∧
      dtbArtifact (runExtractor [1, 2, 3]) = none) :=
  ⟨by decide, c5_magic_mismatch_aborts [1, 2, 3] (by decide)⟩

/-- C2: whenever the run reaches success, the ramdisk artifact holds exactly
the input bytes starting at offset `ALIGN(VENDOR_HEADER_SIZE, page_size)`
with length `vendor_ramdisk_size`, and the dtb artifact holds exactly the
bytes starting at `ALIGN(VENDOR_HEADER_SIZE, page_size) +
ALIGN(vendor_ramdisk_size, page_size)` with length `dtb_size`. Both offsets
are built from the known constant `VENDOR_HEADER_SIZE = 2112`; the parsed
`header_size` field appears nowhere in them. -/
theorem c2_segment_geometry (f r d cm nm : List Nat)
    (h : runExtractor f = .ok r d cm nm) :
    r = (f.drop (ALIGN VENDOR_HEADER_SIZE (parseHdr (f.take 2112)).page_size)).take
        (parseHdr (f.take 2112)).vendor_ramdisk_size ∧
    d = (f.drop (ALIGN VENDOR_HEADER_SIZE (parseHdr (f.take 2112)).page_size +
          ALIGN (parseHdr (f.take 2112)).vendor_ramdisk_size
            (parseHdr (f.take 2112)).page_size)).take
        (parseHdr (f.take 2112)).dtb_size := by
  by_cases hlen : 2112 ≤ f.length
  · by_cases hm : (parseHdr (f.take 2112)).magic = VENDOR_BOOT_MAGIC
    · by_cases hP : (parseHdr (f.take 2112)).page_size = 0
      · rw [run_div_fault f hlen hm hP] at h
        simp at h
      · cases hr1 : freadAt f
            (ALIGN VENDOR_HEADER_SIZE (parseHdr (f.take 2112)).page_size)
            (parseHdr (f.take 2112)).vendor_ramdisk_size with
        | none =>
          rw [run_ramdisk_fail f hlen hm hP hr1] at h
          simp at h
        | some r0 =>
          cases hr2 : freadAt f
              (ALIGN VENDOR_HEADER_SIZE (parseHdr (f.take 2112)).page_size +
                ALIGN (parseHdr (f.take 2112)).vendor_ramdisk_size
                  (parseHdr (f.take 2112)).page_size)
              (parseHdr (f.take 2112)).dtb_size with
          | none =>
            rw [run_dtb_fail f hlen hm hP r0 hr1 hr2] at h
            simp at h
          | some d0 =>
            rw [run_ok f hlen hm hP r0 d0 hr1 hr2] at h
            simp only [ExtractResult.ok.injEq] at h
            obtain ⟨h1, h2, _, _⟩ := h
            refine ⟨?_, ?_⟩
            · rw [← h1]
              exact (freadAt_inv f _ _ r0 hr1).1
            · rw [← h2]
              exact (freadAt_inv f _ _ d0 hr2).1
    · rw [run_magic_fail f hlen hm] at h
      simp at h
  · rw [run_header_fail f (by omega)] at h
    simp at h

/-- Witness for C2 at the small valid image. -/
theorem c2_segment_geometry_witness :
    ([10, 20] : List Nat) =
      (imgSmall.drop
        (ALIGN VENDOR_HEADER_SIZE (parseHdr (imgSmall.take 2112)).page_size)).take
        (parseHdr (imgSmall.take 2112)).vendor_ramdisk_size ∧
    ([30] : List Nat) =
      (imgSmall.drop
        (ALIGN VENDOR_HEADER_SIZE (parseHdr (imgSmall.take 2112)).page_size +
          ALIGN (parseHdr (imgSmall.take 2112)).vendor_ramdisk_size
            (parseHdr (imgSmall.take 2112)).page_size)).take
        (parseHdr (imgSmall.take 2112)).dtb_size :=
  c2_segment_geometry imgSmall [10, 20] [30] [] [] runExtractor_imgSmall

/-- C6: on a header-valid input, if a declared segment size is nonzero and
exceeds the bytes remaining at its offset, the run fails with the read error
for that segment and that segment's artifact is never created (for the
ramdisk, neither artifact is; for the dtb, its artifact is not while the
previously written ramdisk artifact may exist). -/
theorem c6_truncated_read_fails (f : List Nat) (hlen : 2112 ≤ f.length)
    (hm : (parseHdr (f.take 2112)).magic = VENDOR_BOOT_MAGIC)
    (hP : (parseHdr (f.take 2112)).page_size ≠ 0) :
    (0 < (parseHdr (f.take 2112)).vendor_ramdisk_size →
      f.length < ALIGN VENDOR_HEADER_SIZE (parseHdr (f.take 2112)).page_size +
        (parseHdr (f.take 2112)).vendor_ramdisk_size →
      runExtractor f = .ramdiskReadError ∧
      ramdiskArtifact (runExtractor f) = none ∧
      dtbArtifact (runExtractor f) = none) ∧
    (0 < (parseHdr (f.take 2112)).vendor_ramdisk_size →
      ALIGN VENDOR_HEADER_SIZE (parseHdr (f.take 2112)).page_size +
        (parseHdr (f.take 2112)).vendor_ramdisk_size ≤ f.length →
      0 < (parseHdr (f.take 2112)).dtb_size →
      f.length < ALIGN VENDOR_HEADER_SIZE (parseHdr (f.take 2112)).page_size +
        ALIGN (parseHdr (f.take 2112)).vendor_ramdisk_size
          (parseHdr (f.take 2112)).page_size +
        (parseHdr (f.take 2112)).dtb_size →
      runExtractor f = .dtbReadError
        ((f.drop (ALIGN VENDOR_HEADER_SIZE (parseHdr (f.take 2112)).page_size)).take
          (parseHdr (f.take 2112)).vendor_ramdisk_size) ∧
      dtbArtifact (runExtractor f) = none) := by
  constructor
  · intro h0 hshort
    rw [run_ramdisk_fail f hlen hm hP (freadAt_none_of_short f _ _ hshort)]
    exact ⟨rfl, rfl, rfl⟩
  · intro h0 hfit hds hshort
    have hr1 := freadAt_some f
      (ALIGN VENDOR_HEADER_SIZE (parseHdr (f.take 2112)).page_size)
      (parseHdr (f.take 2112)).vendor_ramdisk_size h0 hfit
    rw [run_dtb_fail f hlen hm hP _ hr1
      (freadAt_none_of_short f _ _ (by omega))]
    exact ⟨rfl, rfl⟩

/-- Witness for C6 at a 2112-byte input that declares a 5-byte ramdisk with
no payload bytes following. -/
theorem c6_truncated_read_fails_witness :
    (0 < (parseHdr (imgTruncated.take 2112)).vendor_ramdisk_size →
      imgTruncated.length <
        ALIGN VENDOR_HEADER_SIZE (parseHdr (imgTruncated.take 2112)).page_size +
          (parseHdr (imgTruncated.take 2112)).vendor_ramdisk_size →
      runExtractor imgTruncated = .ramdiskReadError ∧
      ramdiskArtifact (runExtractor imgTruncated) = none ∧
      dtbArtifact (runExtractor imgTruncated) = none) ∧
    (0 < (parseHdr (imgTruncated.take 2112)).vendor_ramdisk_size →
      ALIGN VENDOR_HEADER_SIZE (parseHdr (imgTruncated.take 2112)).page_size +
        (parseHdr (imgTruncated.take 2112)).vendor_ramdisk_size ≤
          imgTruncated.length →
      0 < (parseHdr (imgTruncated.take 2112)).dtb_size →
      imgTruncated.length <
        ALIGN VENDOR_HEADER_SIZE (parseHdr (imgTruncated.take 2112)).page_size +
          ALIGN (parseHdr (imgTruncated.take 2112)).vendor_ramdisk_size
            (parseHdr (imgTruncated.take 2112)).page_size +
          (parseHdr (imgTruncated.take 2112)).dtb_size →
      runExtractor imgTruncated = .dtbReadError
        ((imgTruncated.drop
          (ALIGN VENDOR_HEADER_SIZE (parseHdr (imgTruncated.take 2112)).page_size)).take
          (parseHdr (imgTruncated.take 2112)).vendor_ramdisk_size) ∧
      dtbArtifact (runExtractor imgTruncated) = none) := by
  have hlen : imgTruncated.length = 2112 := by
    unfold imgTruncated
    exact mkHdrBytes_length 3 1 0 0 5 0 2112 1 0 0 zeroCmdline zeroName
      zeroCmdline_length zeroName_length
  have htake : imgTruncated.take 2112 = imgTruncated := by
    rw [← hlen]
    exact List.take_length imgTruncated
  refine c6_truncated_read_fails imgTruncated (by omega) ?_ ?_
  · rw [htake]
    unfold imgTruncated
    exact mkHdrBytes_magic 3 1 0 0 5 0 2112 1 0 0 zeroCmdline zeroName
  · rw [htake]
    unfold imgTruncated
    rw [mkHdrBytes_page_size 3 1 0 0 5 0 2112 1 0 0 zeroCmdline zeroName (by decide)]
    omega

/-- C7 as stated is false: on an otherwise-valid image that declares
`vendor_ramdisk_size = 0` (with a dtb byte present), `fread` with item size
0 returns 0 items, `file_read` treats that as a failure, and the run ends in
the ramdisk read error with NO output artifact — not in a successful run
with a zero-length artifact. -/
theorem c7_zero_size_counterexample :
    runExtractor imgZeroRamdisk = ExtractResult.ramdiskReadError ∧
    ramdiskArtifact (runExtractor imgZeroRamdisk) = none ∧
    isSuccess (runExtractor imgZeroRamdisk) = false := by
  have hhb : hbZeroRd.length = 2112 := by
    unfold hbZeroRd
    exact mkHdrBytes_length 3 1 0 0 0 0 2112 1 0 0 zeroCmdline zeroName
      zeroCmdline_length zeroName_length
  have hlen : 2112 ≤ imgZeroRamdisk.length := by
    unfold imgZeroRamdisk mkImage
    simp only [List.length_append]
    omega
  have htake : imgZeroRamdisk.take 2112 = hbZeroRd := by
    unfold imgZeroRamdisk mkImage
    exact List.take_left' hhb
  have hrun : runExtractor imgZeroRamdisk = .ramdiskReadError := by
    refine run_ramdisk_fail imgZeroRamdisk hlen ?_ ?_ ?_
    · rw [htake]
      unfold hbZeroRd
      exact mkHdrBytes_magic 3 1 0 0 0 0 2112 1 0 0 zeroCmdline zeroName
    · rw [htake]
      unfold hbZeroRd
      rw [mkHdrBytes_page_size 3 1 0 0 0 0 2112 1 0 0 zeroCmdline zeroName (by decide)]
      omega
    · rw [htake]
      unfold hbZeroRd
      rw [mkHdrBytes_rd_size 3 1 0 0 0 0 2112 1 0 0 zeroCmdline zeroName (by decide)]
      exact freadAt_zero imgZeroRamdisk _
  rw [hrun]
  exact ⟨rfl, rfl, rfl⟩

/-- C7 amended: a declared segment size of 0 does not crash the run (no
division fault), but rather than producing a zero-length artifact the
zero-length `fread` reports 0 items read, so the run fails with the read
error for that segment and produces no artifact for it. -/
theorem c7_zero_size_amended (f : List Nat) (hlen : 2112 ≤ f.length)
    (hm : (parseHdr (f.take 2112)).magic = VENDOR_BOOT_MAGIC)
    (hP : (parseHdr (f.take 2112)).page_size ≠ 0) :
    ((parseHdr (f.take 2112)).vendor_ramdisk_size = 0 →
      runExtractor f = .ramdiskReadError ∧
      ramdiskArtifact (runExtractor f) = none ∧
      dtbArtifact (runExtractor f) = none ∧
      runExtractor f ≠ .divFault) ∧
    (0 < (parseHdr (f.take 2112)).vendor_ramdisk_size →
      ALIGN VENDOR_HEADER_SIZE (parseHdr (f.take 2112)).page_size +
        (parseHdr (f.take 2112)).vendor_ramdisk_size ≤ f.length →
      (parseHdr (f.take 2112)).dtb_size = 0 →
      runExtractor f = .dtbReadError
        ((f.drop (ALIGN VENDOR_HEADER_SIZE (parseHdr (f.take 2112)).page_size)).take
          (parseHdr (f.take 2112)).vendor_ramdisk_size) ∧
      dtbArtifact (runExtractor f) = none ∧
      runExtractor f ≠ .divFault) := by
  constructor
  · intro h0
    have hfail : freadAt f
        (ALIGN VENDOR_HEADER_SIZE (parseHdr (f.take 2112)).page_size)
        (parseHdr (f.take 2112)).vendor_ramdisk_size = none := by
      rw [h0]
      exact freadAt_zero f _
    rw [run_ramdisk_fail f hlen hm hP hfail]
    exact ⟨rfl, rfl, rfl, by simp⟩
  · intro h0 hfit hds
    have hr1 := freadAt_some f
      (ALIGN VENDOR_HEADER_SIZE (parseHdr (f.take 2112)).page_size)
      (parseHdr (f.take 2112)).vendor_ramdisk_size h0 hfit
    have hfail : freadAt f
        (ALIGN VENDOR_HEADER_SIZE (parseHdr (f.take 2112)).page_size +
          ALIGN (parseHdr (f.take 2112)).vendor_ramdisk_size
            (parseHdr (f.take 2112)).page_size)
        (parseHdr (f.take 2112)).dtb_size = none := by
      rw [hds]
      exact freadAt_zero f _
    rw [run_dtb_fail f hlen hm hP _ hr1 hfail]
    exact ⟨rfl, rfl, by simp⟩

/-- Witness for the amended C7 at the zero-ramdisk-size image. -/
theorem c7_zero_size_amended_witness :
    (((parseHdr (imgZeroRamdisk.take 2112)).vendor_ramdisk_size = 0 →
      runExtractor imgZeroRamdisk = .ramdiskReadError ∧
      ramdiskArtifact (runExtractor imgZeroRamdisk) = none ∧
      dtbArtifact (runExtractor imgZeroRamdisk) = none ∧
      runExtractor imgZeroRamdisk ≠ .divFault) ∧
    (0 < (parseHdr (imgZeroRamdisk.take 2112)).vendor_ramdisk_size →
      ALIGN VENDOR_HEADER_SIZE (parseHdr (imgZeroRamdisk.take 2112)).page_size +
        (parseHdr (imgZeroRamdisk.take 2112)).vendor_ramdisk_size ≤
          imgZeroRamdisk.length →
      (parseHdr (imgZeroRamdisk.take 2112)).dtb_size = 0 →
      runExtractor imgZeroRamdisk = .dtbReadError
        ((imgZeroRamdisk.drop
          (ALIGN VENDOR_HEADER_SIZE (parseHdr (imgZeroRamdisk.take 2112)).page_size)).take
          (parseHdr (imgZeroRamdisk.take 2112)).vendor_ramdisk_size) ∧
      dtbArtifact (runExtractor imgZeroRamdisk) = none ∧
      runExtractor imgZeroRamdisk ≠ .divFault)) := by
  have hhb : hbZeroRd.length = 2112 := by
    unfold hbZeroRd
    exact mkHdrBytes_length 3 1 0 0 0 0 2112 1 0 0 zeroCmdline zeroName
      zeroCmdline_length zeroName_length
  have htake : imgZeroRamdisk.take 2112 = hbZeroRd := by
    unfold imgZeroRamdisk mkImage
    exact List.take_left' hhb
  refine c7_zero_size_amended imgZeroRamdisk ?_ ?_ ?_
  · unfold imgZeroRamdisk mkImage
    simp only [List.length_append]
    omega
  · rw [htake]
    unfold hbZeroRd
    exact mkHdrBytes_magic 3 1 0 0 0 0 2112 1 0 0 zeroCmdline zeroName
  · rw [htake]
    unfold hbZeroRd
    rw [mkHdrBytes_page_size 3 1 0 0 0 0 2112 1 0 0 zeroCmdline zeroName (by decide)]
    omega

/-- The whole 65-filled command line passes the terminator scan. -/
theorem takeWhile_replicate65 :
    List.takeWhile (fun b => b != 0) (List.replicate 2048 65) =
      List.replicate 2048 65 := by
  rw [List.takeWhile_replicate, if_pos (by decide)]

theorem hbUnterminated_nm_length : ((67 : Nat) :: List.replicate 15 0).length = 16 := by
  rw [List.length_cons, List.length_replicate]

/-- The `%s` scan of the unterminated command line runs past the 2048-byte
field through `tags_addr` (66,66,66,66) and the first `name` byte (67),
stopping only at the zero in `name[1]`. -/
theorem hbUnterminated_scan28 :
    scanCString hbUnterminated 28 = List.replicate 2048 65 ++ [66, 66, 66, 66, 67] := by
  unfold hbUnterminated scanCString
  rw [mkHdrBytes_drop28, List.takeWhile_append, takeWhile_replicate65, if_pos rfl]
  congr 1

/-- The `%s` scan of the name field stops at `name[1] = 0`. -/
theorem hbUnterminated_scan2080 : scanCString hbUnterminated 2080 = [67] := by
  unfold hbUnterminated scanCString
  rw [mkHdrBytes_drop2080 _ _ _ _ _ _ _ _ _ _ _ _ (List.length_replicate 2048 65),
    show (15 : Nat) = 14 + 1 from by norm_num, List.replicate_succ]
  simp [List.cons_append, List.takeWhile_cons]

/-- The unterminated-strings image extracts successfully, reporting the
overlong command-line string. -/
theorem runExtractor_imgUnterminated :
    runExtractor imgUnterminated =
      .ok [7] [9] (List.replicate 2048 65 ++ [66, 66, 66, 66, 67]) [67] := by
  have hhb : hbUnterminated.length = 2112 := by
    unfold hbUnterminated
    exact mkHdrBytes_length 3 1 0 0 1 1111638594 2112 1 0 0 _ _
      (List.length_replicate 2048 65) hbUnterminated_nm_length
  have hpage : (parseHdr hbUnterminated).page_size = 1 := by
    unfold hbUnterminated
    exact mkHdrBytes_page_size 3 1 0 0 1 1111638594 2112 1 0 0 _ _ (by decide)
  have h := runExtractor_mkImage hbUnterminated [] [7] [] [9] hhb
    (by unfold hbUnterminated
        exact mkHdrBytes_magic 3 1 0 0 1 1111638594 2112 1 0 0 _ _)
    (by rw [hpage]; omega)
    (by unfold hbUnterminated
        rw [mkHdrBytes_rd_size 3 1 0 0 1 1111638594 2112 1 0 0 _ _ (by decide)]
        rfl)
    (by unfold hbUnterminated
        rw [mkHdrBytes_dtb_size 3 1 0 0 1 1111638594 2112 1 0 0 _ _
          (List.length_replicate 2048 65) hbUnterminated_nm_length (by decide)]
        rfl)
    (by decide) (by decide)
    (by rw [hpage]; decide) (by rw [hpage]; decide)
    (by rw [hpage]; decide) (by rw [hpage]; decide)
  rw [show imgUnterminated = mkImage hbUnterminated [] [7] [] [9] from rfl, h,
    hbUnterminated_scan28, hbUnterminated_scan2080]

/-- C8: the claim states the intended bound (never read past the 2048- and
16-byte buffers, even unterminated), but the code prints the fields with a
bare `printf("%s", ...)`: on a successfully processed image whose command
line contains no terminator, the reported string is 2053 bytes long — the
2048 field bytes plus the four `tags_addr` bytes and the first `name` byte,
all read from beyond the field bound — and differs from the spec's bounded
scan of the field. -/
theorem c8_reported_string_reads_past_bound :
    runExtractor imgUnterminated =
      ExtractResult.ok [7] [9]
        (List.replicate 2048 65 ++ [66, 66, 66, 66, 67]) [67] ∧
    (List.replicate 2048 65 ++ [66, 66, 66, 66, 67]).length = 2053 ∧
    boundedCString hbUnterminated 28 2048 = List.replicate 2048 65 ∧
    List.replicate 2048 65 ++ [66, 66, 66, 66, 67] ≠ List.replicate 2048 65 := by
  refine ⟨runExtractor_imgUnterminated, ?_, ?_, ?_⟩
  · rw [List.length_append, List.length_replicate]
    rfl
  · unfold boundedCString hbUnterminated
    rw [mkHdrBytes_drop28, List.take_left' (List.length_replicate 2048 65),
      takeWhile_replicate65]
  · intro he
    have hle := congrArg List.length he
    rw [List.length_append, List.length_replicate] at hle
    simp at hle

/-! ## Facts about the huge-page image -/

theorem hbHuge_length : hbHuge.length = 2112 := by
  unfold hbHuge
  exact mkHdrBytes_length 3 hugePage 0 0 1 0 2112 1 0 0 zeroCmdline zeroName
    zeroCmdline_length zeroName_length

theorem hbHuge_page_size : (parseHdr hbHuge).page_size = hugePage := by
  unfold hbHuge
  exact mkHdrBytes_page_size 3 hugePage 0 0 1 0 2112 1 0 0 zeroCmdline zeroName
    (by decide)

theorem hbHuge_rd_size : (parseHdr hbHuge).vendor_ramdisk_size = 1 := by
  unfold hbHuge
  exact mkHdrBytes_rd_size 3 hugePage 0 0 1 0 2112 1 0 0 zeroCmdline zeroName
    (by decide)

theorem hbHuge_dtb_size : (parseHdr hbHuge).dtb_size = 1 := by
  unfold hbHuge
  exact mkHdrBytes_dtb_size 3 hugePage 0 0 1 0 2112 1 0 0 zeroCmdline zeroName
    zeroCmdline_length zeroName_length (by decide)

theorem imgHuge_take : imgHuge.take 2112 = hbHuge := by
  unfold imgHuge mkImage
  exact List.take_left' hbHuge_length

theorem imgHuge_length_ge : hugePage + 1 ≤ imgHuge.length := by
  have hhuge : 2112 ≤ hugePage := by unfold hugePage; omega
  unfold imgHuge mkImage
  simp only [List.length_append, List.length_replicate, hbHuge_length]
  omega

/-- The run on the huge-page image: the wrapped alignment sends the ramdisk
read to offset 0, so the extracted "ramdisk" is the first header byte. -/
theorem runExtractor_imgHuge :
    runExtractor imgHuge = ExtractResult.ok [86] [7] [] [] := by
  have hhuge : 2112 ≤ hugePage := by unfold hugePage; omega
  have hlen2112 : 2112 ≤ imgHuge.length := by
    have := imgHuge_length_ge
    omega
  have halign1 : ALIGN VENDOR_HEADER_SIZE hugePage = 0 := by decide
  have halign2 : ALIGN 1 hugePage = hugePage := by decide
  have hread1 : freadAt imgHuge 0 1 = some [86] := by
    rw [freadAt_some imgHuge 0 1 (by omega) (by omega), List.drop_zero]
    rfl
  have hgrp : imgHuge = (hbHuge ++ List.replicate (hugePage - 2112) 0) ++
      ([7] ++ (List.replicate (hugePage - 1) 0 ++ [9])) := by
    unfold imgHuge mkImage
    simp [List.append_assoc]
  have hlen1 : (hbHuge ++ List.replicate (hugePage - 2112) 0).length = hugePage := by
    simp only [List.length_append, List.length_replicate, hbHuge_length]
    omega
  have hread2 : freadAt imgHuge hugePage 1 = some [7] := by
    rw [freadAt_some imgHuge hugePage 1 (by omega) imgHuge_length_ge]
    rw [hgrp, List.drop_left' hlen1]
    rfl
  have hmagic : (parseHdr (imgHuge.take 2112)).magic = VENDOR_BOOT_MAGIC := by
    rw [imgHuge_take]
    unfold hbHuge
    exact mkHdrBytes_magic 3 hugePage 0 0 1 0 2112 1 0 0 zeroCmdline zeroName
  have hrun := run_ok imgHuge hlen2112 hmagic
    (by rw [imgHuge_take, hbHuge_page_size]; omega) [86] [7]
    (by rw [imgHuge_take, hbHuge_page_size, hbHuge_rd_size, halign1]; exact hread1)
    (by rw [imgHuge_take, hbHuge_page_size, hbHuge_rd_size, hbHuge_dtb_size,
          halign1, halign2, Nat.zero_add]
        exact hread2)
  rw [hrun, imgHuge_take]
  unfold hbHuge
  rw [scan_cmdline_zero 3 hugePage 0 0 1 0 2112 1 0 0 zeroName,
    scan_name_zero 3 hugePage 0 0 1 0 2112 1 0 0 zeroCmdline zeroCmdline_length]

/-- C1 as stated is false: the image assembled per the round-trip recipe
from a header with correct magic, the nonzero page size 2^32 - 2111, true
nonzero segment sizes and exact page padding is well-formed, yet the 32-bit
alignment computation wraps (2112 + page_size - 1 = 2^32), the extractor
seeks the ramdisk at offset 0 instead of one page in, succeeds, and writes
a ramdisk artifact equal to the first header byte rather than the ramdisk
payload. -/
theorem c1_round_trip_counterexample :
    wellFormedImage hbHuge [7] [9] (List.replicate (hugePage - 2112) 0)
      (List.replicate (hugePage - 1) 0) ∧
    runExtractor imgHuge = ExtractResult.ok [86] [7] [] [] ∧
    ramdiskArtifact (runExtractor imgHuge) ≠ some [7] := by
  have hsa1 : specAlign 2112 hugePage = hugePage := by decide
  have hsa2 : specAlign 1 hugePage = hugePage := by decide
  refine ⟨?_, runExtractor_imgHuge, ?_⟩
  · unfold wellFormedImage
    refine ⟨hbHuge_length, ?_, ?_, ?_, ?_, by decide, by decide, ?_, ?_⟩
    · unfold hbHuge
      exact mkHdrBytes_magic 3 hugePage 0 0 1 0 2112 1 0 0 zeroCmdline zeroName
    · rw [hbHuge_page_size]
      unfold hugePage
      omega
    · rw [hbHuge_rd_size]
      rfl
    · rw [hbHuge_dtb_size]
      rfl
    · rw [List.length_replicate, hbHuge_page_size, hsa1]
    · rw [List.length_replicate, hbHuge_page_size]
      show hugePage - 1 = specAlign ([7] : List Nat).length hugePage - [7].length
      rw [show (([7] : List Nat).length) = 1 from rfl, hsa2]
  · rw [runExtractor_imgHuge]
    decide

/-- C1 amended: the round trip holds for every well-formed image whose
alignment computations stay within 32 bits, that is, whenever
`2112 + page_size ≤ 2^32` and `vendor_ramdisk_size + page_size ≤ 2^32`: the
run succeeds and the two artifacts are byte-for-byte the ramdisk and dtb
payloads. -/
theorem c1_round_trip_amended (hb R D pad1 pad2 : List Nat)
    (hwf : wellFormedImage hb R D pad1 pad2)
    (hov1 : 2112 + (parseHdr hb).page_size ≤ U32_MOD)
    (hov2 : R.length + (parseHdr hb).page_size ≤ U32_MOD) :
    isSuccess (runExtractor (mkImage hb pad1 R pad2 D)) = true ∧
    ramdiskArtifact (runExtractor (mkImage hb pad1 R pad2 D)) = some R ∧
    dtbArtifact (runExtractor (mkImage hb pad1 R pad2 D)) = some D := by
  obtain ⟨hhb, hm, hP, hrd, hds, hR, hD, hp1, hp2⟩ := hwf
  rw [runExtractor_mkImage hb pad1 R pad2 D hhb hm hP hrd hds hR hD hp1 hp2 hov1 hov2]
  exact ⟨rfl, rfl, rfl⟩

/-- Witness for the amended C1 at a `page_size = 4` image with a 3-byte
ramdisk (padded by one byte) and a 1-byte dtb. -/
theorem c1_round_trip_amended_witness :
    isSuccess (runExtractor imgPage4) = true ∧
    ramdiskArtifact (runExtractor imgPage4) = some [10, 20, 30] ∧
    dtbArtifact (runExtractor imgPage4) = some [40] := by
  have hpage : (parseHdr hbPage4).page_size = 4 := by
    unfold hbPage4
    exact mkHdrBytes_page_size 3 4 0 0 3 0 2112 1 0 0 zeroCmdline zeroName (by decide)
  have hwf : wellFormedImage hbPage4 [10, 20, 30] [40] [] [0] := by
    unfold wellFormedImage
    refine ⟨?_, ?_, ?_, ?_, ?_, by decide, by decide, ?_, ?_⟩
    · unfold hbPage4
      exact mkHdrBytes_length 3 4 0 0 3 0 2112 1 0 0 zeroCmdline zeroName
        zeroCmdline_length zeroName_length
    · unfold hbPage4
      exact mkHdrBytes_magic 3 4 0 0 3 0 2112 1 0 0 zeroCmdline zeroName
    · rw [hpage]
      omega
    · unfold hbPage4
      rw [mkHdrBytes_rd_size 3 4 0 0 3 0 2112 1 0 0 zeroCmdline zeroName (by decide)]
      rfl
    · unfold hbPage4
      rw [mkHdrBytes_dtb_size 3 4 0 0 3 0 2112 1 0 0 zeroCmdline zeroName
        zeroCmdline_length zeroName_length (by decide)]
      rfl
    · rw [hpage]
      decide
    · rw [hpage]
      decide
  exact c1_round_trip_amended hbPage4 [10, 20, 30] [40] [] [0] hwf
    (by rw [hpage]; decide) (by rw [hpage]; decide)

end UnpackVendorBoot
